import Mathlib

/-!
Verification model of `SelfieSegmentationProcessor`
(src/demos/browser/app/meetingV2/videofilter/SelfieSegmentationProcessor.ts).

The processor glues a synchronous per-frame render loop to an asynchronous
segmentation-inference backend.  The embedding below translates the class
line by line into pure Lean definitions:

* mutable instance fields become the record `PState`, threaded explicitly;
* the external world observed during one `process` call (the inference
  backend's answer, exception injection at the canvas-drawing sites, the
  browser's blur filter, and the debug FPS text overlay) is the record `Env`;
* a canvas is a width, a height and a pixel function; pixels are
  premultiplied RGBA over `ℚ`; the 2D-context composite operations
  `source-over`, `source-in` and `destination-over` are the standard
  Porter-Duff operators on premultiplied pixels;
* `drawImage` with a destination rectangle is modelled as nearest-neighbour
  resampling (`stretch`), the documented rounding rule of this model;
  assigning a fractional value to `canvas.width` truncates toward zero,
  modelled by `floorScale`;
* the `async` control flow of `process` is sequentialised: the single
  `await` point either resumes with the mask the backend published
  (`Env.inferResult = some m`) or never resumes (`Env.inferResult = none`,
  which is what the source does when `selfieSegmentation.send` rejects:
  the rejection is caught and logged, and the awaited promise is simply
  never resolved), giving the `ProcResult.diverge` outcome;
* the `try { ... } catch` block of `process` becomes `tryBody : ... → TryOut`
  with outcome `thrown` for an exception raised inside the block; `process`
  maps `thrown` to returning the original buffers, exactly like the catch
  handler at lines 170-173 of the source.

The fields `sendCount` and `lastSent` are instrumentation: `sendCount`
counts invocations of `selfieSegmentation.send` (line 132) and `lastSent`
records the image passed to it; neither influences control flow.

The `DeferredObservable` channel (`this.mask$`) is imported by the source
file but its implementation is not under `src/`.  Modelled from the spec:
SingleSlotChannel (spec §4.1) — `currentValue` is the field
`PState.maskValue`, `publish v` stores `some v` and resolves the single
pending waiter, and `awaitNext` resolves with exactly the next published
value; that next-published value is `Env.inferResult` here.

Debug-only constructs of the source that have no behavioural effect on the
processing contract (`Object.assign(window, ...)`, `console.log`, the
2-second FPS interval that recomputes `this.fps`) are not modelled; the FPS
text overlay drawn at lines 167-168 is kept, abstractly, as `Env.overlay`,
applied after the two compositing passes.
-/

namespace SelfieSeg

/-- Premultiplied RGBA pixel with rational components. -/
@[ext]
structure Pixel where
  r : ℚ
  g : ℚ
  b : ℚ
  a : ℚ
deriving DecidableEq

/-- Fully transparent pixel: what `clearRect` leaves behind. -/
def Pixel.clear : Pixel := ⟨0, 0, 0, 0⟩

/-- An HTML canvas: dimensions and a pixel surface. -/
structure Canvas where
  width : Nat
  height : Nat
  data : Nat → Nat → Pixel

/-- Dimensions of a canvas as a pair. -/
def canvasDims (c : Canvas) : Nat × Nat := (c.width, c.height)

/-- A `VideoFrameBuffer`.  `id` models JavaScript object identity (the
processor-owned `canvasVideoFrameBuffer` is the buffer with `id = 0`, the
upstream buffers carry other ids); `surface` is what `asCanvasElement()`
returns, `none` when the underlying surface was already destroyed. -/
structure Buffer where
  id : Nat
  surface : Option Canvas

/-- The argument of `process`: the upstream frame array.  The pipeline
contract always supplies at least one frame, so the first element is kept
separate from the tail. -/
structure Buffers where
  first : Buffer
  rest : List Buffer

/-- Porter-Duff `source-over` on premultiplied pixels (the default
`globalCompositeOperation` used when the mask is drawn at line 151/153). -/
def sourceOver (s d : Pixel) : Pixel :=
  ⟨s.r + d.r * (1 - s.a), s.g + d.g * (1 - s.a),
   s.b + d.b * (1 - s.a), s.a + d.a * (1 - s.a)⟩

/-- Porter-Duff `source-in` on premultiplied pixels (line 157: "Only
overwrite existing pixels"). -/
def sourceIn (s d : Pixel) : Pixel :=
  ⟨s.r * d.a, s.g * d.a, s.b * d.a, s.a * d.a⟩

/-- Porter-Duff `destination-over` on premultiplied pixels (line 162:
"draw under person"). -/
def destOver (s d : Pixel) : Pixel :=
  ⟨d.r + s.r * (1 - d.a), d.g + s.g * (1 - d.a),
   d.b + s.b * (1 - d.a), d.a + s.a * (1 - d.a)⟩

/-- `drawImage(src, 0, 0, w, h)`: the source canvas stretched to a `w × h`
destination rectangle, modelled as nearest-neighbour sampling. -/
def stretch (src : Canvas) (w h : Nat) : Nat → Nat → Pixel :=
  fun x y => src.data (x * src.width / w) (y * src.height / h)

/-- The browser's `filter = blur(...)` semantics, kept abstract: given a
strength and an image it returns the blurred image. -/
def BlurFn : Type := ℚ → (Nat → Nat → Pixel) → Nat → Nat → Pixel

/-- Lines 148-165 of `process`: the two-pass composite drawn into the
target canvas while a mask is available.
1. `clearRect` empties the surface;
2. the mask is drawn (source-over) stretched to the target dimensions;
3. with `source-in`, the input frame is drawn, keeping only mask-opaque
   pixels;
4. with `destination-over`, the input frame — blurred when
   `blurAmount > 0`, untouched otherwise since the filter is only set
   under that guard (line 163) — fills every pixel left empty. -/
def compositePasses (blurFn : BlurFn) (blurAmount : ℚ) (m : Canvas)
    (w h : Nat) (input : Canvas) : Nat → Nat → Pixel :=
  let afterClear : Nat → Nat → Pixel := fun _ _ => Pixel.clear
  let afterMask : Nat → Nat → Pixel :=
    fun x y => sourceOver (stretch m w h x y) (afterClear x y)
  let afterFg : Nat → Nat → Pixel :=
    fun x y => sourceIn (stretch input w h x y) (afterMask x y)
  let bgSource : Nat → Nat → Pixel :=
    if 0 < blurAmount then blurFn blurAmount (stretch input w h)
    else stretch input w h
  fun x y => destOver (bgSource x y) (afterFg x y)

/-- Truncation of a nonnegative rational toward zero (integer part);
for `q < 0` it returns `0`, a case outside the claims' domain of positive
scale factors. -/
def ratTruncNat (q : ℚ) : Nat := q.num.toNat / q.den

/-- Assigning `n * f` to a canvas dimension: WebIDL conversion truncates
the (nonnegative) product toward zero. -/
def floorScale (f : ℚ) (n : Nat) : Nat := ratTruncNat ((n : ℚ) * f)

/-- Lines 116-123: the freshly created scaled canvas.  Its dimensions are
`inputCanvas.width * scaleFactor` (truncated) by
`inputCanvas.height * scaleFactor` (truncated) — the source applies no
lower clamp — and its content is the input resampled by `ctx.scale(f, f);
drawImage(input, 0, 0)`, modelled as nearest-neighbour. -/
def scaleCanvas (f : ℚ) (c : Canvas) : Canvas :=
  { width := floorScale f c.width
    height := floorScale f c.height
    data := fun x y => c.data (ratTruncNat ((x : ℚ) / f)) (ratTruncNat ((y : ℚ) / f)) }

/-- The mutable instance fields of `SelfieSegmentationProcessor`. -/
structure PState where
  /-- set true by the `initialize().then` callback (line 54). -/
  isReady : Bool
  sourceWidth : Nat
  sourceHeight : Nat
  /-- constructor parameter `strength`, in px (line 47). -/
  blurAmount : ℚ
  /-- segment every `reduceFactor` frames (line 31). -/
  reduceFactor : Nat
  /-- line 32, initialised to `reduceFactor` to force a run on first
  process. -/
  runningCount : Nat
  /-- line 35. -/
  scaleFactor : ℚ
  /-- current value of the `mask$` channel (spec-modelled, §4.1). -/
  maskValue : Option Canvas
  /-- `this.targetCanvas`; `none` after `destroy()` sets it `undefined`. -/
  targetCanvas : Option Canvas
  /-- whether `canvasVideoFrameBuffer.destroy()` has been called. -/
  bufferDestroyed : Bool
  /-- whether `this.selfieSegmentation` is still defined. -/
  segAlive : Bool
  /-- whether the FPS interval timer is still registered. -/
  fpsTimerActive : Bool
  /-- `this.frames`, incremented after each awaited mask (line 139). -/
  frames : Nat
  /-- instrumentation: number of `selfieSegmentation.send` calls. -/
  sendCount : Nat
  /-- instrumentation: the image most recently passed to `send`. -/
  lastSent : Option Canvas

/-- The external world, as observed during a single `process` call. -/
structure Env where
  /-- `some m`: the backend runs and `onResults` publishes mask `m`, so
  the awaited `whenNext` promise resolves with `m`.  `none`: the `send`
  promise rejects — the rejection is caught and logged at lines 132-134
  and the awaited promise is never resolved. -/
  inferResult : Option Canvas
  /-- injects an exception at the canvas operations of the scaling branch
  (lines 116-123), representing e.g. `getContext` returning `null`. -/
  throwAtScale : Bool
  /-- injects an exception at the canvas operations of the compositing
  branch (lines 148-168). -/
  throwAtComposite : Bool
  /-- the browser's blur-filter semantics. -/
  blurFn : BlurFn
  /-- the debug FPS text overlay (lines 167-168), abstract. -/
  overlay : (Nat → Nat → Pixel) → Nat → Nat → Pixel

/-- Outcome of the `try` block of `process` (lines 109-173). -/
inductive TryOut where
  /-- an exception was raised inside the block; the state records every
  mutation made before the throw. -/
  | thrown (s : PState)
  /-- the awaited mask promise is never resolved (`send` rejected), so the
  call suspends forever at the `await`. -/
  | awaitsForever (s : PState)
  /-- the block ran to completion. -/
  | fine (s : PState)

/-- Outcome of one `process` call. -/
inductive ProcResult where
  /-- the returned promise resolves with `out`. -/
  | ok (out : Buffers) (s : PState)
  /-- the returned promise never settles (stuck at the `await`). -/
  | diverge (s : PState)
  /-- the returned promise rejects: an exception escaped `process`. -/
  | err (s : PState)

/-- The processor state carried by a `ProcResult`. -/
def stateOf : ProcResult → PState
  | .ok _ s => s
  | .diverge s => s
  | .err s => s

/-- The buffers a resolving `process` call hands downstream. -/
def outOf : ProcResult → Option Buffers
  | .ok out _ => some out
  | .diverge _ => none
  | .err _ => none

/-- Whether the call rejected (propagated an exception). -/
def isErr : ProcResult → Bool
  | .err _ => true
  | _ => false

/-- The processor-owned output buffer wrapping the (current) target
canvas (line 21 of the source). -/
def canvasVideoFrameBuffer (s : PState) : Buffer := ⟨0, s.targetCanvas⟩

/-- The target canvas after the composite of lines 148-168 was drawn
into it: same dimensions, pixels replaced by the two-pass composite with
the debug overlay applied on top. -/
def compositedCanvas (env : Env) (blurAmount : ℚ) (m tc input : Canvas) : Canvas :=
  { tc with data := env.overlay (compositePasses env.blurFn blurAmount m tc.width tc.height input) }

/-- Lines 142-169: `runningCount += 1`, then, when a mask is at hand,
the composite.  Reading `this.targetCanvas` via destructuring at lines
144-145 throws inside the `try` block when the field is `undefined`
(after `destroy()`), hence the `thrown` outcome on `none`. -/
def afterGate (env : Env) (s : PState) (inputCanvas : Canvas)
    (mask : Option Canvas) : TryOut :=
  let s1 := { s with runningCount := s.runningCount + 1 }
  match mask with
  | none => .fine s1
  | some m =>
    match s1.targetCanvas with
    | none => .thrown s1
    | some tc =>
      if env.throwAtComposite then .thrown s1
      else .fine { s1 with targetCanvas := some (compositedCanvas env s1.blurAmount m tc inputCanvas) }

/-- Lines 128-140: register the waiter, call `send` on the (possibly
scaled) image, await the next published mask, and count the completion in
`this.frames`. -/
def afterSend (env : Env) (s : PState) (inputCanvas scaled : Canvas) : TryOut :=
  let s1 := { s with sendCount := s.sendCount + 1, lastSent := some scaled }
  match env.inferResult with
  | none => .awaitsForever s1
  | some m =>
    afterGate env { s1 with maskValue := some m, frames := s1.frames + 1 }
      inputCanvas (some m)

/-- The `try` block, lines 109-169.  On the gate branch the counter is
reset to `runningCount % 1` (line 112) before scaling; `doScale` is
`scaleFactor !== 1` (line 107). -/
def tryBody (env : Env) (s : PState) (inputCanvas : Canvas) : TryOut :=
  if s.runningCount = s.reduceFactor then
    let s1 := { s with runningCount := s.runningCount % 1 }
    if s.scaleFactor ≠ 1 then
      if env.throwAtScale then .thrown s1
      else afterSend env s1 inputCanvas (scaleCanvas s.scaleFactor inputCanvas)
    else afterSend env s1 inputCanvas inputCanvas
  else afterGate env s inputCanvas s.maskValue

/-- Lines 170-177: the catch handler returns the original buffers; the
normal exit replaces `buffers[0]` with the processor-owned buffer —
unconditionally, whether or not a composite was drawn. -/
def finishProcess (env : Env) (s : PState) (b : Buffers)
    (inputCanvas : Canvas) : ProcResult :=
  match tryBody env s inputCanvas with
  | .thrown s1 => .ok b s1
  | .awaitsForever s1 => .diverge s1
  | .fine s1 => .ok ⟨canvasVideoFrameBuffer s1, b.rest⟩ s1

/-- `process(buffers)`, lines 81-178.  Early returns: not ready (82-84),
destroyed input surface (86-90), zero-sized frame (92-96).  The resize
branch (98-105) first records the new source dimensions (99-100) and then
touches `this.targetCanvas` (103): when that field is `undefined` (after
`destroy()`), the resulting TypeError is raised outside the `try` block
and rejects the returned promise, hence `.err`. -/
def process (env : Env) (s : PState) (b : Buffers) : ProcResult :=
  if s.isReady then
    match b.first.surface with
    | none => .ok b s
    | some inputCanvas =>
      if inputCanvas.width = 0 ∨ inputCanvas.height = 0 then .ok b s
      else
        if s.sourceWidth = inputCanvas.width ∧ s.sourceHeight = inputCanvas.height then
          finishProcess env s b inputCanvas
        else
          let s1 := { s with sourceWidth := inputCanvas.width,
                             sourceHeight := inputCanvas.height }
          match s.targetCanvas with
          | none => .err s1
          | some _ =>
            finishProcess env
              { s1 with targetCanvas := some (⟨inputCanvas.width,
                  inputCanvas.height, fun _ _ => Pixel.clear⟩ : Canvas) }
              b inputCanvas
  else .ok b s

/-- `n` consecutive `process` calls on the same frame array, threading the
state (the caller awaits each call before issuing the next, spec §5). -/
def processIter (env : Env) (b : Buffers) : Nat → PState → PState
  | 0, s => s
  | n + 1, s => processIter env b n (stateOf (process env s b))

/-- `destroy()`, lines 180-188: destroys the owned frame buffer, closes
and clears the segmentation handle, removes and clears the target canvas,
and cancels the FPS timer.  `isReady` and the `mask$` channel are left
untouched. -/
def destroy (s : PState) : PState :=
  { s with bufferDestroyed := true, segAlive := false,
           targetCanvas := none, fpsTimerActive := false }

/-- The `onResults` callback registered in the constructor (lines 50-53):
`this.mask$.next(segmentationMask)`.  The channel publish is
spec-modelled (§4.1): it stores the value as current.  The callback reads
only `this.mask$`, a field `destroy()` never clears, so it cannot throw a
null-dereference: it is total, returning `.ok`. -/
def onSegmentationResults (s : PState) (m : Canvas) : Except Unit PState :=
  .ok { s with maskValue := some m }

/-- The constructor (lines 46-68) with blur `strength`: not ready yet,
gate counter forced to `reduceFactor = 1`, fresh 300×150 default canvas
as target. -/
def mkProcessor (strength : ℚ) : PState :=
  { isReady := false, sourceWidth := 0, sourceHeight := 0,
    blurAmount := strength, reduceFactor := 1, runningCount := 1,
    scaleFactor := 1, maskValue := none,
    targetCanvas := some ⟨300, 150, fun _ _ => Pixel.clear⟩,
    bufferDestroyed := false, segAlive := true, fpsTimerActive := true,
    frames := 0, sendCount := 0, lastSent := none }

/-- The `initialize().then` continuation (line 54). -/
def markReady (s : PState) : PState := { s with isReady := true }

/-- `updateScaleFactor(scale)`, lines 190-197. -/
def updateScaleFactor (s : PState) (f : ℚ) : PState := { s with scaleFactor := f }

/-! Concrete fixtures used by witnesses and counterexamples. -/

/-- Identity blur, a legitimate instantiation of the abstract filter. -/
def idBlur : BlurFn := fun _ img => img

/-- A fully opaque white 4×4 mask. -/
def maskC : Canvas := ⟨4, 4, fun _ _ => ⟨1, 1, 1, 1⟩⟩

/-- A 4×4 opaque red input frame. -/
def frameC : Canvas := ⟨4, 4, fun _ _ => ⟨1, 0, 0, 1⟩⟩

/-- A well-behaved environment: the backend publishes `maskC`, nothing
throws, identity blur and overlay. -/
def envOk : Env := ⟨some maskC, false, false, idBlur, id⟩

/-- A frame array holding the single 4×4 input buffer, id 5. -/
def bufC : Buffers := ⟨⟨5, some frameC⟩, []⟩

/-- A blank 4×4 canvas. -/
def clear4 : Canvas := ⟨4, 4, fun _ _ => Pixel.clear⟩

/-- A fully transparent 4×4 mask. -/
def clearMask4 : Canvas := ⟨4, 4, fun _ _ => Pixel.clear⟩

/-- A ready processor whose recorded source size matches `frameC`. -/
def readyBase : PState :=
  { isReady := true, sourceWidth := 4, sourceHeight := 4, blurAmount := 7,
    reduceFactor := 1, runningCount := 1, scaleFactor := 1,
    maskValue := none, targetCanvas := some clear4,
    bufferDestroyed := false, segAlive := true, fpsTimerActive := true,
    frames := 0, sendCount := 0, lastSent := none }

/-- `readyBase` with the gate mid-period and no cached mask: the state of
a processor whose first gated frame threw during scaling (the catch
handler runs after line 112 reset the counter but before any mask was
published). -/
def skipS : PState := { readyBase with runningCount := 0 }

/-- `readyBase` configured with gate period 2, counter at its
post-readiness initial value (the constructor sets `runningCount` to
`reduceFactor`). -/
def gateS2 : PState := { readyBase with reduceFactor := 2, runningCount := 2 }

/-- A 100×100 opaque white frame. -/
def frame100 : Canvas := ⟨100, 100, fun _ _ => ⟨1, 1, 1, 1⟩⟩

/-- A frame array holding the single 100×100 buffer, id 7. -/
def buf100 : Buffers := ⟨⟨7, some frame100⟩, []⟩

/-- A blank 100×100 canvas. -/
def clear100 : Canvas := ⟨100, 100, fun _ _ => Pixel.clear⟩

/-- A ready processor matched to `frame100` with scale factor 1/200, gate
about to fire. -/
def tinyScaleS : PState :=
  { readyBase with
    sourceWidth := 100, sourceHeight := 100, scaleFactor := 1/200,
    targetCanvas := some clear100 }

/-- `readyBase` with scale factor 1/2, gate about to fire. -/
def halfScaleS : PState := { readyBase with scaleFactor := 1/2 }

/-- An environment that raises an exception at the compositing canvas
operations. -/
def envThrowComposite : Env := ⟨some maskC, false, true, idBlur, id⟩

/-- `readyBase` holding a cached mask, gate mid-period. -/
def cachedMaskS : PState :=
  { readyBase with runningCount := 0, maskValue := some maskC }

/-- A degenerate 0×4 canvas. -/
def zeroCanvas : Canvas := ⟨0, 4, fun _ _ => Pixel.clear⟩

/-- A frame array holding the single degenerate buffer, id 9. -/
def bufZero : Buffers := ⟨⟨9, some zeroCanvas⟩, []⟩

/-- A frame array whose first buffer's surface is already destroyed,
id 11. -/
def bufDead : Buffers := ⟨⟨11, none⟩, []⟩

/-! ## Path lemmas: how `process` traverses its branches. -/

theorem process_not_ready (env : Env) (s : PState) (b : Buffers)
    (h : s.isReady = false) : process env s b = .ok b s := by
  simp [process, h]

theorem process_no_surface (env : Env) (s : PState) (b : Buffers)
    (h : b.first.surface = none) : process env s b = .ok b s := by
  cases hr : s.isReady <;> simp [process, h, hr]

theorem process_zero_size (env : Env) (s : PState) (b : Buffers) (c : Canvas)
    (hc : b.first.surface = some c) (h : c.width = 0 ∨ c.height = 0) :
    process env s b = .ok b s := by
  cases hr : s.isReady
  · simp [process, hr]
  · rcases h with h | h <;> simp [process, hr, hc, h]

theorem process_eq_finish (env : Env) (s : PState) (b : Buffers) (c : Canvas)
    (hready : s.isReady = true) (hc : b.first.surface = some c)
    (hw : c.width ≠ 0) (hh : c.height ≠ 0)
    (hsw : s.sourceWidth = c.width) (hsh : s.sourceHeight = c.height) :
    process env s b = finishProcess env s b c := by
  simp [process, hready, hc, hw, hh, hsw, hsh]

theorem process_eq_finish_resize (env : Env) (s : PState) (b : Buffers) (c tc : Canvas)
    (hready : s.isReady = true) (hc : b.first.surface = some c)
    (hw : c.width ≠ 0) (hh : c.height ≠ 0)
    (hdim : ¬(s.sourceWidth = c.width ∧ s.sourceHeight = c.height))
    (htcv : s.targetCanvas = some tc) :
    process env s b =
      finishProcess env
        { s with sourceWidth := c.width, sourceHeight := c.height,
                 targetCanvas := some (⟨c.width, c.height, fun _ _ => Pixel.clear⟩ : Canvas) }
        b c := by
  simp [process, hready, hc, hw, hh, hdim, htcv]

theorem finish_gate_skip (env : Env) (s : PState) (b : Buffers) (c : Canvas)
    (hgate : s.runningCount ≠ s.reduceFactor) (hmask : s.maskValue = none) :
    finishProcess env s b c =
      .ok ⟨canvasVideoFrameBuffer { s with runningCount := s.runningCount + 1 }, b.rest⟩
        { s with runningCount := s.runningCount + 1 } := by
  simp [finishProcess, tryBody, hgate, afterGate, hmask]

theorem finish_gate_cached (env : Env) (s : PState) (b : Buffers) (c mm tc : Canvas)
    (hgate : s.runningCount ≠ s.reduceFactor) (hmask : s.maskValue = some mm)
    (htcv : s.targetCanvas = some tc) (hthrow : env.throwAtComposite = false) :
    finishProcess env s b c =
      .ok ⟨canvasVideoFrameBuffer
             { s with
               runningCount := s.runningCount + 1,
               targetCanvas := some (compositedCanvas env s.blurAmount mm tc c) },
           b.rest⟩
        { s with
          runningCount := s.runningCount + 1,
          targetCanvas := some (compositedCanvas env s.blurAmount mm tc c) } := by
  simp [finishProcess, tryBody, hgate, afterGate, hmask, htcv, hthrow]

theorem finish_trigger (env : Env) (s : PState) (b : Buffers) (c mk tc : Canvas)
    (hgate : s.runningCount = s.reduceFactor)
    (hm : env.inferResult = some mk) (hts : env.throwAtScale = false)
    (hthrow : env.throwAtComposite = false) (htcv : s.targetCanvas = some tc) :
    finishProcess env s b c =
      .ok ⟨canvasVideoFrameBuffer
             { s with
               runningCount := 1, sendCount := s.sendCount + 1,
               lastSent := some (if s.scaleFactor = 1 then c else scaleCanvas s.scaleFactor c),
               maskValue := some mk, frames := s.frames + 1,
               targetCanvas := some (compositedCanvas env s.blurAmount mk tc c) },
           b.rest⟩
        { s with
          runningCount := 1, sendCount := s.sendCount + 1,
          lastSent := some (if s.scaleFactor = 1 then c else scaleCanvas s.scaleFactor c),
          maskValue := some mk, frames := s.frames + 1,
          targetCanvas := some (compositedCanvas env s.blurAmount mk tc c) } := by
  by_cases hsf : s.scaleFactor = 1 <;>
    simp [finishProcess, tryBody, hgate, hsf, hts, afterSend, hm, afterGate, htcv, hthrow,
      Nat.mod_one]

/-! ## Claim theorems. -/

/-- Claim C3: if the inference backend has not completed its asynchronous
initialization (`isReady` still false), `process` returns its input
unchanged — state included — regardless of frame content, and therefore
does so on every subsequent call until initialization completes. -/
theorem notReadyPassthrough (env : Env) (s : PState) (b : Buffers)
    (h : s.isReady = false) :
    process env s b = .ok b s ∧ ∀ n, processIter env b n s = s := by
  refine ⟨process_not_ready env s b h, ?_⟩
  intro n
  induction n with
  | zero => rfl
  | succ n ih => simp [processIter, process_not_ready env s b h, stateOf, ih]

/-- Witness for C3 at the freshly constructed processor. -/
theorem notReadyPassthroughW :
    (mkProcessor 7).isReady = false ∧
    process envOk (mkProcessor 7) bufC = .ok bufC (mkProcessor 7) :=
  ⟨rfl, (notReadyPassthrough envOk (mkProcessor 7) bufC rfl).1⟩

/-- Claim C4: a frame whose width or height is 0, or whose underlying
surface is already destroyed (`asCanvasElement()` returns nothing), is
treated as degenerate: `process` returns the input buffers unchanged with
the state untouched — so no inference is submitted and no composite is
drawn. -/
theorem degeneratePassthrough (env : Env) (s : PState) (b : Buffers)
    (h : b.first.surface = none ∨
         ∃ c, b.first.surface = some c ∧ (c.width = 0 ∨ c.height = 0)) :
    process env s b = .ok b s := by
  rcases h with h | ⟨c, hc, h⟩
  · exact process_no_surface env s b h
  · exact process_zero_size env s b c hc h

/-- Witness for C4: a 0×4 frame and a destroyed surface both pass
through. -/
theorem degeneratePassthroughW :
    zeroCanvas.width = 0 ∧
    process envOk readyBase bufZero = .ok bufZero readyBase ∧
    process envOk readyBase bufDead = .ok bufDead readyBase :=
  ⟨rfl, degeneratePassthrough envOk readyBase bufZero (Or.inr ⟨zeroCanvas, rfl, Or.inl rfl⟩),
    degeneratePassthrough envOk readyBase bufDead (Or.inl rfl)⟩

/-- Counterexample for C2: `skipS` is ready, holds no mask (`maskValue =
none`), the gate does not fire (`sendCount` stays 0, so no mask is freshly
delivered either), and the 4×4 input frame is non-degenerate — yet the
returned first buffer is the processor-owned output buffer (id 0), not
the input buffer (id 5): the input is not passed through unmodified. -/
theorem noMaskPassthroughCex :
    skipS.isReady = true ∧ skipS.maskValue = none ∧
    (stateOf (process envOk skipS bufC)).sendCount = 0 ∧
    bufC.first.id = 5 ∧
    (outOf (process envOk skipS bufC)).map (fun o => o.first.id) = some 0 :=
  ⟨rfl, rfl, rfl, rfl, rfl⟩

/-- Claim C2 (amended): when the processor is ready, the input frame is
non-degenerate and no mask is available (none cached and none freshly
delivered, the gate not firing), `process` does NOT pass the input
through: it skips the composite but still replaces the first buffer with
the processor-owned output buffer (line 175 runs unconditionally after
the `try` block); only the gate counter advances. -/
theorem noMaskStillReplacesFirst (env : Env) (s : PState) (b : Buffers) (c : Canvas)
    (hready : s.isReady = true) (hc : b.first.surface = some c)
    (hw : c.width ≠ 0) (hh : c.height ≠ 0)
    (hsw : s.sourceWidth = c.width) (hsh : s.sourceHeight = c.height)
    (hgate : s.runningCount ≠ s.reduceFactor) (hmask : s.maskValue = none) :
    process env s b =
      .ok ⟨canvasVideoFrameBuffer { s with runningCount := s.runningCount + 1 }, b.rest⟩
        { s with runningCount := s.runningCount + 1 } := by
  rw [process_eq_finish env s b c hready hc hw hh hsw hsh]
  exact finish_gate_skip env s b c hgate hmask

/-- Witness for the amended C2 at the concrete no-mask state. -/
theorem noMaskStillReplacesFirstW :
    skipS.maskValue = none ∧
    process envOk skipS bufC =
      .ok ⟨canvasVideoFrameBuffer { skipS with runningCount := skipS.runningCount + 1 },
           bufC.rest⟩
        { skipS with runningCount := skipS.runningCount + 1 } :=
  ⟨rfl, noMaskStillReplacesFirst envOk skipS bufC frameC rfl rfl (by decide) (by decide)
     rfl rfl (by decide) rfl⟩

/-- Counterexample for C6: after `destroy()`, a late inference completion
does mutate processor state — the callback publishes the mask into the
`mask$` channel, changing `maskValue` from `none` to `some`. -/
theorem lateCallbackMutatesCex :
    (destroy readyBase).maskValue = none ∧
    onSegmentationResults (destroy readyBase) maskC =
      .ok { destroy readyBase with maskValue := some maskC } ∧
    ({ destroy readyBase with maskValue := some maskC } : PState).maskValue ≠
      (destroy readyBase).maskValue :=
  ⟨rfl, rfl, by simp [destroy, readyBase]⟩

/-- Claim C6 (amended): a late inference completion after `destroy()`
never throws (the callback touches only the `mask$` channel, which
`destroy()` leaves intact, so no freed resource is used) and its only
observable effect is publishing the mask into that channel: the resulting
state is exactly the destroyed state with `maskValue` updated. -/
theorem lateCallbackOnlyMask (s : PState) (m : Canvas) :
    onSegmentationResults (destroy s) m =
      .ok { destroy s with maskValue := some m } := rfl

theorem process_err_resize (env : Env) (s : PState) (b : Buffers) (c : Canvas)
    (hready : s.isReady = true) (hc : b.first.surface = some c)
    (hw : c.width ≠ 0) (hh : c.height ≠ 0)
    (hdim : ¬(s.sourceWidth = c.width ∧ s.sourceHeight = c.height))
    (htc : s.targetCanvas = none) :
    process env s b = .err { s with sourceWidth := c.width, sourceHeight := c.height } := by
  simp [process, hready, hc, hw, hh, hdim, htc]

theorem isErr_finish (env : Env) (s : PState) (b : Buffers) (c : Canvas) :
    isErr (finishProcess env s b c) = false := by
  unfold finishProcess
  cases tryBody env s c <;> rfl

/-- Claim C5: no failure is ever propagated downstream by `process` on a
live (non-destroyed) processor.  First conjunct: the returned promise
never rejects — in particular a rejection of the external `send` call is
only logged (the call then suspends at the `await`, it does not error).
Second conjunct: whenever the `try` block throws, the catch handler
returns the original input buffers unmodified for that tick. -/
theorem failuresAbsorbed (env : Env) (s : PState) (b : Buffers)
    (hLive : s.targetCanvas ≠ none) :
    isErr (process env s b) = false ∧
    (∀ s2 c s1, tryBody env s2 c = .thrown s1 → finishProcess env s2 b c = .ok b s1) := by
  constructor
  · cases hr : s.isReady with
    | false => rw [process_not_ready env s b hr]; rfl
    | true =>
      cases hs : b.first.surface with
      | none => rw [process_no_surface env s b hs]; rfl
      | some c =>
        by_cases hd : c.width = 0 ∨ c.height = 0
        · rw [process_zero_size env s b c hs hd]; rfl
        · have hw : c.width ≠ 0 := fun h2 => hd (Or.inl h2)
          have hh : c.height ≠ 0 := fun h2 => hd (Or.inr h2)
          by_cases hdim : s.sourceWidth = c.width ∧ s.sourceHeight = c.height
          · rw [process_eq_finish env s b c hr hs hw hh hdim.1 hdim.2]
            exact isErr_finish env s b c
          · obtain ⟨tc, htc⟩ := Option.ne_none_iff_exists'.mp hLive
            rw [process_eq_finish_resize env s b c tc hr hs hw hh hdim htc]
            exact isErr_finish env _ b c
  · intro s2 c s1 h
    simp [finishProcess, h]

/-- Witness for C5: with an exception injected at the compositing
operations, `process` still does not reject, and the catch handler on a
concrete thrown `try` block yields exactly the original buffers. -/
theorem failuresAbsorbedW :
    readyBase.targetCanvas ≠ none ∧
    isErr (process envThrowComposite readyBase bufC) = false ∧
    finishProcess envThrowComposite cachedMaskS bufC frameC =
      .ok bufC { cachedMaskS with runningCount := cachedMaskS.runningCount + 1 } := by
  have h := failuresAbsorbed envThrowComposite readyBase bufC (by simp [readyBase])
  exact ⟨by simp [readyBase], h.1, h.2 cachedMaskS frameC _ rfl⟩

theorem finish_ok_shape (env : Env) (s : PState) (b : Buffers) (c : Canvas)
    (out : Buffers) (s1 : PState) (h : finishProcess env s b c = .ok out s1) :
    out = b ∨ out = ⟨canvasVideoFrameBuffer s1, b.rest⟩ := by
  unfold finishProcess at h
  split at h
  · cases h; exact Or.inl rfl
  · cases h
  · cases h; exact Or.inr rfl

theorem process_ok_shape (env : Env) (s : PState) (b : Buffers)
    (out : Buffers) (s1 : PState) (h : process env s b = .ok out s1) :
    out = b ∨ out = ⟨canvasVideoFrameBuffer s1, b.rest⟩ := by
  unfold process at h
  split at h
  · split at h
    · cases h; exact Or.inl rfl
    · split at h
      · cases h; exact Or.inl rfl
      · split at h
        · exact finish_ok_shape _ _ _ _ _ _ h
        · split at h
          · cases h
          · exact finish_ok_shape _ _ _ _ _ _ h
  · cases h; exact Or.inl rfl

theorem process_rest_irrel (env : Env) (s : PState) (f : Buffer) (r1 r2 : List Buffer) :
    stateOf (process env s ⟨f, r1⟩) = stateOf (process env s ⟨f, r2⟩) ∧
    (outOf (process env s ⟨f, r1⟩)).map (fun o => o.first) =
      (outOf (process env s ⟨f, r2⟩)).map (fun o => o.first) := by
  have finishCase : ∀ (s2 : PState) (c : Canvas),
      stateOf (finishProcess env s2 ⟨f, r1⟩ c) = stateOf (finishProcess env s2 ⟨f, r2⟩ c) ∧
      (outOf (finishProcess env s2 ⟨f, r1⟩ c)).map (fun o => o.first) =
        (outOf (finishProcess env s2 ⟨f, r2⟩ c)).map (fun o => o.first) := by
    intro s2 c
    cases ht : tryBody env s2 c <;> simp [finishProcess, ht, stateOf, outOf]
  cases hr : s.isReady with
  | false =>
    rw [process_not_ready env s ⟨f, r1⟩ hr, process_not_ready env s ⟨f, r2⟩ hr]
    exact ⟨rfl, rfl⟩
  | true =>
    cases hs : f.surface with
    | none =>
      rw [process_no_surface env s ⟨f, r1⟩ hs, process_no_surface env s ⟨f, r2⟩ hs]
      exact ⟨rfl, rfl⟩
    | some c =>
      by_cases hd : c.width = 0 ∨ c.height = 0
      · rw [process_zero_size env s ⟨f, r1⟩ c hs hd, process_zero_size env s ⟨f, r2⟩ c hs hd]
        exact ⟨rfl, rfl⟩
      · have hw : c.width ≠ 0 := fun h2 => hd (Or.inl h2)
        have hh : c.height ≠ 0 := fun h2 => hd (Or.inr h2)
        by_cases hdim : s.sourceWidth = c.width ∧ s.sourceHeight = c.height
        · rw [process_eq_finish env s ⟨f, r1⟩ c hr hs hw hh hdim.1 hdim.2,
            process_eq_finish env s ⟨f, r2⟩ c hr hs hw hh hdim.1 hdim.2]
          exact finishCase s c
        · cases htc : s.targetCanvas with
          | none =>
            rw [process_err_resize env s ⟨f, r1⟩ c hr hs hw hh hdim htc,
              process_err_resize env s ⟨f, r2⟩ c hr hs hw hh hdim htc]
            exact ⟨rfl, rfl⟩
          | some tc =>
            rw [process_eq_finish_resize env s ⟨f, r1⟩ c tc hr hs hw hh hdim htc,
              process_eq_finish_resize env s ⟨f, r2⟩ c tc hr hs hw hh hdim htc]
            exact finishCase _ c

/-- Claim C10: buffer-array discipline of `process`.
1. Whatever a resolving call returns, the tail of the array is exactly the
   input tail and the first element is either the untouched input first
   element or the processor-owned output buffer — elements at index 1 and
   beyond are never modified.
2. On the not-ready, destroyed-surface and zero-size pass-through paths
   the whole array, state included, is returned exactly as given.
3. On an exception path the catch handler returns the array exactly as
   given.
4. The tail is never read: neither the resulting state nor the returned
   first element depends on it. -/
theorem bufferDiscipline (env : Env) (s : PState) (b : Buffers) :
    (∀ out s1, process env s b = .ok out s1 →
       out.rest = b.rest ∧ (out.first = b.first ∨ out.first = canvasVideoFrameBuffer s1)) ∧
    (s.isReady = false ∨ b.first.surface = none ∨
       (∃ c, b.first.surface = some c ∧ (c.width = 0 ∨ c.height = 0)) →
       process env s b = .ok b s) ∧
    (∀ s2 c s1, tryBody env s2 c = .thrown s1 → finishProcess env s2 b c = .ok b s1) ∧
    (∀ r2, stateOf (process env s ⟨b.first, r2⟩) = stateOf (process env s b) ∧
       (outOf (process env s ⟨b.first, r2⟩)).map (fun o => o.first) =
         (outOf (process env s b)).map (fun o => o.first)) := by
  refine ⟨?_, ?_, ?_, ?_⟩
  · intro out s1 h
    rcases process_ok_shape env s b out s1 h with h1 | h1 <;> subst h1
    · exact ⟨rfl, Or.inl rfl⟩
    · exact ⟨rfl, Or.inr rfl⟩
  · intro h
    rcases h with h | h | ⟨c, hc, hd⟩
    · exact process_not_ready env s b h
    · exact process_no_surface env s b h
    · exact process_zero_size env s b c hc hd
  · intro s2 c s1 h
    simp [finishProcess, h]
  · intro r2
    exact process_rest_irrel env s b.first r2 b.rest

/-- Witness for C10 at a concrete not-ready state. -/
theorem bufferDisciplineW :
    (mkProcessor 3).isReady = false ∧
    process envOk (mkProcessor 3) bufZero = .ok bufZero (mkProcessor 3) :=
  ⟨rfl, (bufferDiscipline envOk (mkProcessor 3) bufZero).2.1 (Or.inl rfl)⟩

/-! ## Pixel-level lemmas for the compositing claims. -/

theorem sourceOver_clear (p : Pixel) : sourceOver p Pixel.clear = p := by
  unfold sourceOver Pixel.clear
  ext <;> simp

theorem sourceIn_opaque (p q : Pixel) (hq : q.a = 1) : sourceIn p q = p := by
  unfold sourceIn
  ext <;> simp [hq]

theorem sourceIn_zeroAlpha (p q : Pixel) (hq : q.a = 0) : sourceIn p q = Pixel.clear := by
  unfold sourceIn Pixel.clear
  ext <;> simp [hq]

theorem destOver_opaque (p q : Pixel) (hq : q.a = 1) : destOver p q = q := by
  unfold destOver
  ext <;> simp [hq]

theorem destOver_clear (p : Pixel) : destOver p Pixel.clear = p := by
  unfold destOver Pixel.clear
  ext <;> simp

/-- Claim C8: with a fully opaque mask and blur strength 0, and an opaque
source frame (video frames carry alpha 1) whose dimensions match the
composite target, the two-pass composite reproduces the source pixels
exactly at every coordinate: no blur or background blending bleeds into
the fully-masked region. -/
theorem opaqueMaskRoundTrip (bf : BlurFn) (m input : Canvas) (w h : Nat)
    (hw : 0 < w) (hh : 0 < h) (hiw : input.width = w) (hih : input.height = h)
    (hm : ∀ i j, (m.data i j).a = 1) (hi : ∀ i j, (input.data i j).a = 1)
    (x y : Nat) :
    compositePasses bf 0 m w h input x y = input.data x y := by
  have hxw : x * input.width / w = x := by
    rw [hiw]; exact Nat.mul_div_cancel x hw
  have hyh : y * input.height / h = y := by
    rw [hih]; exact Nat.mul_div_cancel y hh
  simp only [compositePasses, stretch]
  rw [if_neg (lt_irrefl (0 : ℚ))]
  rw [hxw, hyh, sourceOver_clear, sourceIn_opaque _ _ (hm _ _),
    destOver_opaque _ _ (hi x y)]

/-- Witness for C8 at the concrete opaque mask and opaque frame. -/
theorem opaqueMaskRoundTripW :
    (0 : Nat) < 4 ∧
    compositePasses idBlur 0 maskC 4 4 frameC 0 0 = frameC.data 0 0 :=
  ⟨by decide, opaqueMaskRoundTrip idBlur maskC frameC 4 4 (by decide) (by decide) rfl rfl
    (fun _ _ => rfl) (fun _ _ => rfl) 0 0⟩

/-- Claim C9: with a fully transparent mask and nonzero blur strength the
composite equals the blurred source frame at every pixel (first
conjunct); and blur strength 0 is an exact no-op — the blur filter is
never applied, so the composite does not depend on the blur semantics at
all (second conjunct). -/
theorem transparentMaskBlur :
    (∀ (bf : BlurFn) (q : ℚ) (m input : Canvas) (w h x y : Nat),
       (∀ i j, m.data i j = Pixel.clear) → 0 < q →
       compositePasses bf q m w h input x y = bf q (stretch input w h) x y) ∧
    (∀ (bf1 bf2 : BlurFn) (m input : Canvas) (w h x y : Nat),
       compositePasses bf1 0 m w h input x y = compositePasses bf2 0 m w h input x y) := by
  constructor
  · intro bf q m input w h x y hm hq
    have hm' : ∀ i j : Nat, stretch m w h i j = Pixel.clear := by
      intro i j; simp [stretch, hm]
    simp only [compositePasses]
    rw [hm', if_pos hq, sourceOver_clear, sourceIn_zeroAlpha _ _ rfl, destOver_clear]
  · intro bf1 bf2 m input w h x y
    simp only [compositePasses]
    rw [if_neg (lt_irrefl (0 : ℚ)), if_neg (lt_irrefl (0 : ℚ))]

/-- Witness for C9 at the concrete transparent mask with blur strength
7. -/
theorem transparentMaskBlurW :
    (0 : ℚ) < 7 ∧
    compositePasses idBlur 7 clearMask4 4 4 frameC 0 0 = idBlur 7 (stretch frameC 4 4) 0 0 :=
  ⟨by norm_num,
    transparentMaskBlur.1 idBlur 7 clearMask4 frameC 4 4 0 0 (fun _ _ => rfl) (by norm_num)⟩

/-! ## The gate: inference count over consecutive frames. -/

theorem process_step_fields (env : Env) (b : Buffers) (c mk : Canvas)
    (hm : env.inferResult = some mk) (hts : env.throwAtScale = false)
    (hthrow : env.throwAtComposite = false)
    (hc : b.first.surface = some c) (hw : c.width ≠ 0) (hh : c.height ≠ 0)
    (s : PState) (hready : s.isReady = true) (hLive : s.targetCanvas ≠ none) :
    (stateOf (process env s b)).sendCount
        = s.sendCount + (if s.runningCount = s.reduceFactor then 1 else 0) ∧
    (stateOf (process env s b)).runningCount
        = (if s.runningCount = s.reduceFactor then 1 else s.runningCount + 1) ∧
    (stateOf (process env s b)).isReady = true ∧
    (stateOf (process env s b)).reduceFactor = s.reduceFactor ∧
    (stateOf (process env s b)).targetCanvas ≠ none := by
  have main : ∀ (s0 : PState) (tc : Canvas), s0.targetCanvas = some tc →
      s0.runningCount = s.runningCount → s0.reduceFactor = s.reduceFactor →
      s0.sendCount = s.sendCount → s0.isReady = true →
      (stateOf (finishProcess env s0 b c)).sendCount
          = s.sendCount + (if s.runningCount = s.reduceFactor then 1 else 0) ∧
      (stateOf (finishProcess env s0 b c)).runningCount
          = (if s.runningCount = s.reduceFactor then 1 else s.runningCount + 1) ∧
      (stateOf (finishProcess env s0 b c)).isReady = true ∧
      (stateOf (finishProcess env s0 b c)).reduceFactor = s.reduceFactor ∧
      (stateOf (finishProcess env s0 b c)).targetCanvas ≠ none := by
    intro s0 tc htc hrc hrf hsc hrdy
    by_cases hgate : s0.runningCount = s0.reduceFactor
    · have hgS : s.runningCount = s.reduceFactor := by rw [← hrc, ← hrf]; exact hgate
      rw [finish_trigger env s0 b c mk tc hgate hm hts hthrow htc]
      simp [stateOf, hgS, hrc, hrf, hsc, hrdy]
    · have hgS : ¬(s.runningCount = s.reduceFactor) := by
        rw [← hrc, ← hrf]; exact hgate
      cases hmv : s0.maskValue with
      | none =>
        rw [finish_gate_skip env s0 b c hgate hmv]
        simp [stateOf, hgS, hrc, hrf, hsc, hrdy, htc]
      | some mm =>
        rw [finish_gate_cached env s0 b c mm tc hgate hmv htc hthrow]
        simp [stateOf, hgS, hrc, hrf, hsc, hrdy]
  obtain ⟨tc, htc⟩ := Option.ne_none_iff_exists'.mp hLive
  by_cases hdim : s.sourceWidth = c.width ∧ s.sourceHeight = c.height
  · rw [process_eq_finish env s b c hready hc hw hh hdim.1 hdim.2]
    exact main s tc htc rfl rfl rfl hready
  · rw [process_eq_finish_resize env s b c tc hready hc hw hh hdim htc]
    exact main _ _ rfl rfl rfl rfl hready

theorem processIter_sendCount (env : Env) (b : Buffers) (c mk : Canvas) (N : Nat)
    (hm : env.inferResult = some mk) (hts : env.throwAtScale = false)
    (hthrow : env.throwAtComposite = false)
    (hc : b.first.surface = some c) (hw : c.width ≠ 0) (hh : c.height ≠ 0)
    (hN : 0 < N) :
    ∀ (M : Nat) (s : PState), s.isReady = true → s.reduceFactor = N →
      s.targetCanvas ≠ none → 1 ≤ s.runningCount → s.runningCount ≤ N →
      (processIter env b M s).sendCount = s.sendCount + (M + s.runningCount - 1) / N := by
  intro M
  induction M with
  | zero =>
    intro s _ _ _ h1 hle
    have hlt : s.runningCount - 1 < N := by omega
    simp [processIter, Nat.div_eq_of_lt hlt]
  | succ M ih =>
    intro s hrdy hrf htcv h1 hle
    obtain ⟨hsc, hrc, hrdy2, hrf2, htcv2⟩ :=
      process_step_fields env b c mk hm hts hthrow hc hw hh s hrdy htcv
    have step : processIter env b (M + 1) s
        = processIter env b M (stateOf (process env s b)) := rfl
    rw [step]
    by_cases hg : s.runningCount = s.reduceFactor
    · have ih2 := ih (stateOf (process env s b)) hrdy2 (by rw [hrf2, hrf]) htcv2
        (by rw [hrc, if_pos hg]) (by rw [hrc, if_pos hg]; omega)
      rw [ih2, hsc, hrc, if_pos hg, if_pos hg]
      have hrcN : s.runningCount = N := by rw [hg, hrf]
      have e1 : M + 1 - 1 = M := by omega
      have e2 : M + 1 + s.runningCount - 1 = M + N := by omega
      rw [e1, e2, Nat.add_div_right M hN]
      ring
    · have hgN : s.runningCount < N := by
        have : s.runningCount ≠ N := fun he => hg (by rw [he, hrf])
        omega
      have ih2 := ih (stateOf (process env s b)) hrdy2 (by rw [hrf2, hrf]) htcv2
        (by rw [hrc, if_neg hg]; omega) (by rw [hrc, if_neg hg]; omega)
      rw [ih2, hsc, hrc, if_neg hg, if_neg hg]
      have e1 : M + (s.runningCount + 1) - 1 = M + 1 + s.runningCount - 1 := by omega
      rw [e1]
      ring

/-- Counterexample for C1: with period `N = 2` and `M = 1` same-size
frame processed after readiness (`gateS2` is the post-readiness gate
state: the constructor initialises the counter to the period, forcing a
first-frame run), inference is submitted exactly once — but
`floor(M/N) = 1 / 2 = 0`: the claimed count is wrong. -/
theorem gateFloorCountCex :
    gateS2.reduceFactor = 2 ∧ gateS2.isReady = true ∧ gateS2.sendCount = 0 ∧
    (processIter envOk bufC 1 gateS2).sendCount = 1 ∧ (1 : Nat) / 2 = 0 :=
  ⟨rfl, rfl, rfl, rfl, rfl⟩

/-- Claim C1 (amended): for every period `N ≥ 1` and count `M ≥ 0` of
consecutive same-size frames processed after readiness, inference is
submitted exactly `ceil(M/N) = (M + N - 1) / N` times — not
`floor(M/N)`, because the constructor initialises the counter to the
period, forcing a run on the first frame.  The gate fires exactly when
the counter equals the period; the counter is then reset to
`counter % 1 = 0` (line 112), which — the trigger being exact equality —
coincides with the remainder after subtracting the period, so the gate
never degenerates into firing on every call when `N > 1`. -/
theorem gateInferenceCount (env : Env) (b : Buffers) (c mk : Canvas) (N M : Nat)
    (hm : env.inferResult = some mk) (hts : env.throwAtScale = false)
    (hthrow : env.throwAtComposite = false)
    (hc : b.first.surface = some c) (hw : c.width ≠ 0) (hh : c.height ≠ 0)
    (hN : 0 < N) (s : PState) (hready : s.isReady = true)
    (hrf : s.reduceFactor = N) (hrc : s.runningCount = N)
    (hLive : s.targetCanvas ≠ none) :
    (processIter env b M s).sendCount = s.sendCount + (M + N - 1) / N := by
  have h := processIter_sendCount env b c mk N hm hts hthrow hc hw hh hN M s hready hrf
    hLive (by omega) (by omega)
  rw [h, hrc]

/-- Witness for the amended C1: period 2, three frames, two inference
submissions (`(3 + 2 - 1) / 2 = 2`). -/
theorem gateInferenceCountW :
    (0 : Nat) < 2 ∧
    (processIter envOk bufC 3 gateS2).sendCount = gateS2.sendCount + (3 + 2 - 1) / 2 :=
  ⟨by decide,
    gateInferenceCount envOk bufC frameC maskC 2 3 rfl rfl rfl rfl (by decide) (by decide)
      (by decide) gateS2 rfl rfl rfl (by simp [gateS2, readyBase])⟩

/-! ## The scaler. -/

theorem ratTruncNat_eq_zero (q : ℚ) (h : q < 1) : ratTruncNat q = 0 := by
  unfold ratTruncNat
  apply Nat.div_eq_of_lt
  have hd : 0 < q.den := q.pos
  have hnum : q.num < (q.den : Int) := by rwa [Rat.lt_one_iff_num_lt_denom] at h
  omega

/-- Counterexample for C7: with scale factor `1/200 > 0` on a 100×100
frame, the image handed to inference is a 0×0 canvas
(`100 * 1/200` truncates to 0): the source applies no 1×1 lower clamp. -/
theorem scalerClampCex :
    (0 : ℚ) < 1 / 200 ∧
    ((stateOf (process envOk tinyScaleS buf100)).lastSent).map canvasDims = some (0, 0) := by
  refine ⟨by norm_num, ?_⟩
  have h1 : process envOk tinyScaleS buf100 = finishProcess envOk tinyScaleS buf100 frame100 :=
    process_eq_finish envOk tinyScaleS buf100 frame100 rfl rfl (by decide) (by decide) rfl rfl
  have h2 := finish_trigger envOk tinyScaleS buf100 frame100 maskC clear100 rfl rfl rfl rfl rfl
  have hsf : tinyScaleS.scaleFactor ≠ 1 := by
    show (1 / 200 : ℚ) ≠ 1
    norm_num
  have hzw : floorScale tinyScaleS.scaleFactor 100 = 0 := by
    unfold floorScale
    apply ratTruncNat_eq_zero
    show ((100 : Nat) : ℚ) * tinyScaleS.scaleFactor < 1
    have : tinyScaleS.scaleFactor = 1 / 200 := rfl
    rw [this]
    norm_num
  rw [h1, h2]
  simp only [stateOf, Option.map]
  rw [if_neg hsf]
  simp [canvasDims, scaleCanvas, frame100, hzw]

/-- Claim C7 (amended): on a gate-firing call with target canvas sized to
the recorded source dimensions: if the scale factor is 1 the image handed
to inference is the input canvas itself (no copy); otherwise it is the
freshly allocated scaled canvas with dimensions
`(trunc(w·f), trunc(h·f))` — truncation with NO lower clamp to 1×1 — and
the final output buffer handed downstream is the processor-owned buffer
whose canvas keeps the original source dimensions `(w, h)`, not the
scaled ones.  (The input frame itself is never written: every drawing
operation of the model only reads it.) -/
theorem scalerDims (env : Env) (s : PState) (b : Buffers) (c mk tc : Canvas)
    (hm : env.inferResult = some mk) (hts : env.throwAtScale = false)
    (hthrow : env.throwAtComposite = false)
    (hready : s.isReady = true) (hc : b.first.surface = some c)
    (hw : c.width ≠ 0) (hh : c.height ≠ 0)
    (hgate : s.runningCount = s.reduceFactor)
    (htcv : s.targetCanvas = some tc)
    (htw : tc.width = s.sourceWidth) (hth : tc.height = s.sourceHeight) :
    (s.scaleFactor = 1 → (stateOf (process env s b)).lastSent = some c) ∧
    (s.scaleFactor ≠ 1 →
       (stateOf (process env s b)).lastSent = some (scaleCanvas s.scaleFactor c) ∧
       ((stateOf (process env s b)).lastSent).map canvasDims =
         some (floorScale s.scaleFactor c.width, floorScale s.scaleFactor c.height)) ∧
    ((stateOf (process env s b)).targetCanvas).map canvasDims = some (c.width, c.height) ∧
    outOf (process env s b) =
      some ⟨canvasVideoFrameBuffer (stateOf (process env s b)), b.rest⟩ := by
  by_cases hdim : s.sourceWidth = c.width ∧ s.sourceHeight = c.height
  · rw [process_eq_finish env s b c hready hc hw hh hdim.1 hdim.2,
      finish_trigger env s b c mk tc hgate hm hts hthrow htcv]
    refine ⟨fun hsf => by simp [stateOf, hsf], fun hsf => ?_, ?_, by simp [stateOf, outOf]⟩
    · constructor
      · simp [stateOf, hsf]
      · simp [stateOf, hsf, canvasDims, scaleCanvas]
    · simp [stateOf, compositedCanvas, canvasDims, htw, hth, hdim.1, hdim.2]
  · rw [process_eq_finish_resize env s b c tc hready hc hw hh hdim htcv,
      finish_trigger env
        { s with sourceWidth := c.width, sourceHeight := c.height,
                 targetCanvas := some (⟨c.width, c.height, fun _ _ => Pixel.clear⟩ : Canvas) }
        b c mk ⟨c.width, c.height, fun _ _ => Pixel.clear⟩ hgate hm hts hthrow rfl]
    refine ⟨fun hsf => by simp [stateOf, hsf], fun hsf => ?_, ?_, by simp [stateOf, outOf]⟩
    · constructor
      · simp [stateOf, hsf]
      · simp [stateOf, hsf, canvasDims, scaleCanvas]
    · simp [stateOf, compositedCanvas, canvasDims]

/-- Witness for the amended C7 at scale factor 1/2: the frame submitted
to inference is the scaled copy. -/
theorem scalerDimsW :
    ((1 : ℚ) / 2 ≠ 1) ∧
    (stateOf (process envOk halfScaleS bufC)).lastSent = some (scaleCanvas (1 / 2) frameC) := by
  have h := scalerDims envOk halfScaleS bufC frameC maskC clear4 rfl rfl rfl rfl rfl
    (by decide) (by decide) rfl rfl rfl rfl
  have hne : halfScaleS.scaleFactor ≠ 1 := by
    show (1 / 2 : ℚ) ≠ 1
    norm_num
  exact ⟨by norm_num, (h.2.1 hne).1⟩

end SelfieSeg
